import Mathlib

/-!
Verification of the TUI-browser core (`src/main.py`): the image rasterizer's
size arithmetic, the element model and its rendering, and the document mapper
(`Parser._parse_elements` / `Parser._parse_inline_content` / `Parser.parse`).

Conventions of the shallow embedding:
* Python's `int(x)` on a nonnegative quantity is truncation; all the
  rasterizer divisions act on nonnegative exact values, so they are embedded
  as `Nat` floor division (the float expressions are modelled exactly).
  The character aspect parameter is fixed at its default `0.5`, so
  `int((H / W) * max_width * 0.5)` becomes `(H * max_width) / (2 * W)`.
* BeautifulSoup's node kinds are embedded as the inductive `Node`:
  plain text, comments and doctypes (all three are `str` subclasses in bs4,
  which matters for dispatch order), and tags with attributes and children.
* `get_text(strip=True)` joins the stripped plain-text descendants, skipping
  comment/doctype strings and the special string containers of
  script/style/template subtrees.
-/

/-! ## ANSI escape constants (lines 8, 48-56 of main.py) -/

def RESET : String := "\x1b[0m"

def BOLD : String := "\x1b[1m"

def UNDERLINE : String := "\x1b[4m"

def BLACK_FG : String := "\x1b[30m"

def RED_FG : String := "\x1b[31m"

def GREEN_FG : String := "\x1b[32m"

def YELLOW_FG : String := "\x1b[33m"

def BLUE_FG : String := "\x1b[34m"

def CYAN_FG : String := "\x1b[36m"

def WHITE_BG : String := "\x1b[47m"

/-! ## Image rasterizer size arithmetic (`image_to_terminal_art`, lines 23-46) -/

/-- Line 24: `target_height_chars = int((original_height / original_width) * max_width * char_aspect_ratio)`
with the default `char_aspect_ratio = 0.5`, i.e. the floor of `H*mw/(2*W)`. -/
def targetHeightChars0 (W H mw : ℕ) : ℕ := (H * mw) / (2 * W)

/-- Line 25: `target_height_chars = max(1, target_height_chars + (target_height_chars % 2))`.
Note the even-rounding happens before the `max(1, ...)` floor. -/
def targetHeightChars (W H mw : ℕ) : ℕ :=
  max 1 (targetHeightChars0 W H mw + targetHeightChars0 W H mw % 2)

/-- Lines 27-33: the resized pixel dimensions `(width, height)`, including the
width-capping re-derivation branch. -/
def resizedDims (W H mw : ℕ) : ℕ × ℕ :=
  let rh := targetHeightChars W H mw * 2
  let rw := (W * rh) / H
  if rw > mw then
    (mw, (H * mw) / W + ((H * mw) / W) % 2)
  else
    (rw, rh)

/-- Final resized pixel height (second component of `resizedDims`). -/
def resizedHeightPixels (W H mw : ℕ) : ℕ := (resizedDims W H mw).2

/-- Line 39: the loop `for y in range(0, resized_height_pixels, 2)` appends one
line per iteration, so the number of emitted lines is `ceil(height / 2)`. -/
def outputLineCount (W H mw : ℕ) : ℕ := (resizedHeightPixels W H mw + 1) / 2

/-- Lines 39-43: the `(top, bottom)` pixel-row index pairs touched by the loop:
`y` ranges over `0, 2, 4, ...` below `rh`, and the bottom index is
`min (y+1) (rh-1)`. -/
def rowPairIndices (rh : ℕ) : List (ℕ × ℕ) :=
  (List.range ((rh + 1) / 2)).map (fun i => (2 * i, min (2 * i + 1) (rh - 1)))

/-- Line 41: the column indices `x in range(resized_width_pixels)`. -/
def colIndices (w : ℕ) : List ℕ := List.range w

/-! ## Element model (classes TextNode .. ImageElement, lines 58-125) -/

/-- The closed set of renderable element kinds produced by the mapper.
`div` (class `Div`) is part of the model but never constructed by the parser. -/
inductive Element where
  | textNode (text : String)
  | anchor (text href : String)
  | paragraph (contentParts : List Element)
  | heading (text : String) (level : ℕ)
  | listElement (itemsContentParts : List (List Element))
  | button (label : String)
  | div (elements : List Element)
  | imageElement (src : String)

/-- Heading style selection, line 82: `{1: BLUE_FG, 2: GREEN_FG}.get(self.level, YELLOW_FG)`. -/
def headingStyle (level : ℕ) : String :=
  if level = 1 then BLUE_FG else if level = 2 then GREEN_FG else YELLOW_FG

/-- Python's `s.strip('\n')` used by `Div.render`: drop newlines at both ends. -/
def stripNewlines (s : String) : String :=
  String.mk (((s.data.dropWhile (· = '\n')).reverse.dropWhile (· = '\n')).reverse)

mutual

/-- The `render` method of each element class (lines 58-125).  `ImageElement.render`
returns the empty string on its success path; its visual output is a direct
side effect and is outside the pure model. -/
def renderElement : Element → String
  | .textNode t => t
  | .anchor t _ => " " ++ BLUE_FG ++ UNDERLINE ++ t ++ RESET ++ " "
  | .paragraph parts => renderList parts ++ "\n"
  | .heading t lvl =>
      "\n" ++ BOLD ++ headingStyle lvl ++ String.mk (List.replicate lvl '#') ++ " " ++ t
        ++ RESET ++ "\n"
  | .listElement items => String.intercalate "\n" (renderItems items) ++ "\n"
  | .button label => " " ++ BLACK_FG ++ WHITE_BG ++ BOLD ++ "[ " ++ label ++ " ]" ++ RESET ++ "\n"
  | .div els => "\n\n" ++ stripNewlines (renderList els) ++ "\n\n"
  | .imageElement _ => ""

/-- `"".join(part.render() for part in parts)`. -/
def renderList : List Element → String
  | [] => ""
  | e :: es => renderElement e ++ renderList es

/-- `ListElement.render`'s per-item strings: bullet prefix plus the joined item parts. -/
def renderItems : List (List Element) → List String
  | [] => []
  | item :: rest => (CYAN_FG ++ "•" ++ RESET ++ " " ++ renderList item) :: renderItems rest

end

/-! ## Markup tree model (the bs4 collaborator's node kinds)

In bs4, `Comment` and `Doctype` are subclasses of `NavigableString`, which is a
subclass of `str`; tag nodes carry a name, an attribute map and ordered
children.  The dispatch in `_parse_elements` tests `isinstance(tag, str)` first,
so comments and doctypes take the string branch there. -/

inductive Node where
  | text (s : String)
  | comment (s : String)
  | doctype (s : String)
  | tag (name : String) (attrs : List (String × String)) (children : List Node)

/-- Python's `str.strip()`: drop whitespace from both ends (modelled over the
ASCII whitespace characters recognised by `Char.isWhitespace`). -/
def pyStrip (s : String) : String :=
  String.mk (((s.data.dropWhile Char.isWhitespace).reverse.dropWhile Char.isWhitespace).reverse)

/-- Python's `str.lower()` (ASCII case folding suffices for the tag names and
noise patterns involved). -/
def pyLower (s : String) : String := String.mk (s.data.map Char.toLower)

/-- Attribute lookup, modelling `tag.get(key)` / `key in tag.attrs` on the
attribute mapping (first binding wins). -/
def lookupAttr (attrs : List (String × String)) (key : String) : Option String :=
  (attrs.find? (fun p => p.1 = key)).map (·.2)

mutual

/-- The plain-text descendant strings of a node, as collected by bs4's
`get_text`: comment and doctype strings are skipped (`get_text` only yields
exact `NavigableString` instances), and the strings inside `script`, `style`
and `template` subtrees are special string-container types, also skipped. -/
def textStrings : Node → List String
  | .text s => [s]
  | .comment _ => []
  | .doctype _ => []
  | .tag name _ children =>
      if pyLower name = "script" ∨ pyLower name = "style" ∨ pyLower name = "template" then []
      else textStringsList children

def textStringsList : List Node → List String
  | [] => []
  | c :: cs => textStrings c ++ textStringsList cs

end

/-- `tag.get_text(strip=True)`: each descendant string stripped, empties
skipped, joined with the empty separator — i.e. the concatenation of the
stripped descendant strings. -/
def getTextStrip (n : Node) : String :=
  String.join ((textStrings n).map pyStrip)

/-- Substring test on character lists (Python's `needle in haystack`). -/
def charsContain (pat : List Char) : List Char → Bool
  | [] => pat.isEmpty
  | c :: rest => pat.isPrefixOf (c :: rest) || charsContain pat rest

/-- Python's `pat in hay` on strings. -/
def strContains (hay pat : String) : Bool := charsContain pat.data hay.data

/-- One content node of `_parse_inline_content`'s loop (lines 161-183):
comments/doctypes are skipped; a raw string is trimmed and kept as a
`TextNode` unless empty or matching the conditional-markup noise patterns;
`script`/`style`/`noscript` tags are skipped; `a` becomes an `Anchor` (when
its text is non-empty), `img` an `ImageElement` (when it has `src`), and any
other tag is flattened to a single `TextNode` from its full stripped text
(when non-empty). -/
def parseInlineNode : Node → List Element
  | .comment _ => []
  | .doctype _ => []
  | .text s =>
      if pyStrip s ≠ "" ∧ strContains (pyLower (pyStrip s)) "endif" = false
          ∧ strContains (pyLower (pyStrip s)) "[if" = false
          ∧ strContains (pyStrip s) "<!" = false then
        [.textNode (pyStrip s)]
      else []
  | .tag name attrs children =>
      if pyLower name = "script" ∨ pyLower name = "style" ∨ pyLower name = "noscript" then []
      else if pyLower name = "a" then
        if getTextStrip (.tag name attrs children) = "" then []
        else [.anchor (getTextStrip (.tag name attrs children)) ((lookupAttr attrs "href").getD "#")]
      else if pyLower name = "img" then
        match lookupAttr attrs "src" with
        | some src => [.imageElement src]
        | none => []
      else
        if getTextStrip (.tag name attrs children) = "" then []
        else [.textNode (getTextStrip (.tag name attrs children))]

/-- `_parse_inline_content(parent)`: the loop over `parent.contents`. -/
def parseInlineList (children : List Node) : List Element :=
  children.flatMap parseInlineNode

/-- `[
self._parse_inline_content(li) for li in tag.find_all('li', recursive=False)]`:
one inline-content sequence per direct `li` child. -/
def liItems (children : List Node) : List (List Element) :=
  children.filterMap (fun c =>
    match c with
    | .tag n _ cs => if n = "li" then some (parseInlineList cs) else none
    | _ => none)

/-- The tag-name dispatch of `_parse_elements` (lines 136-157), abstracted over
the already-computed block-level mapping of the children (`childElems`), which
only the final container/unknown branch consumes. -/
def dispatchTag (name : String) (attrs : List (String × String)) (children : List Node)
    (childElems : List Element) : List Element :=
  if pyLower name = "style" ∨ pyLower name = "script" ∨ pyLower name = "noscript" then []
  else if pyLower name = "h1" then [.heading (getTextStrip (.tag name attrs children)) 1]
  else if pyLower name = "h2" then [.heading (getTextStrip (.tag name attrs children)) 2]
  else if pyLower name = "h3" then [.heading (getTextStrip (.tag name attrs children)) 3]
  else if pyLower name = "p" then [.paragraph (parseInlineList children)]
  else if pyLower name = "ul" then [.listElement (liItems children)]
  else if pyLower name = "a" then
    if getTextStrip (.tag name attrs children) = "" then []
    else [.anchor (getTextStrip (.tag name attrs children)) ((lookupAttr attrs "href").getD "#")]
  else if pyLower name = "button" then [.button (getTextStrip (.tag name attrs children))]
  else if pyLower name = "img" then
    match lookupAttr attrs "src" with
    | some src => [.imageElement src]
    | none => []
  else
    match childElems with
    | [] =>
        if getTextStrip (.tag name attrs children) = "" then []
        else [.textNode (getTextStrip (.tag name attrs children))]
    | e :: es => e :: es

mutual

/-- `Parser._parse_elements` (lines 133-157).  The `isinstance(tag, str)` test
on line 134 catches plain text, comments and doctypes alike (all are `str`
subclasses), so all three produce a `TextNode` when their stripped text is
non-empty; the `isinstance(tag, (Comment, Doctype))` test on line 136 is
unreachable for them. -/
def parseElements : Node → List Element
  | .text s => if pyStrip s = "" then [] else [.textNode (pyStrip s)]
  | .comment s => if pyStrip s = "" then [] else [.textNode (pyStrip s)]
  | .doctype s => if pyStrip s = "" then [] else [.textNode (pyStrip s)]
  | .tag name attrs children => dispatchTag name attrs children (parseElementsList children)

/-- Concatenated block-level mapping of a list of sibling nodes (the loop in
the container/unknown branch, lines 154-156). -/
def parseElementsList : List Node → List Element
  | [] => []
  | c :: cs => parseElements c ++ parseElementsList cs

end

mutual

/-- Depth-first pre-order search for the first tag with the given name within
one node (the node itself, then its descendants), modelling `soup.find(name)`. -/
def findInNode (target : String) : Node → Option Node
  | .tag n a cs => if n = target then some (.tag n a cs) else findTagNamed target cs
  | _ => none

/-- Depth-first pre-order search across a sibling list and its descendants. -/
def findTagNamed (target : String) : List Node → Option Node
  | [] => none
  | c :: rest =>
      match findInNode target c with
      | some t => some t
      | none => findTagNamed target rest

end

/-- `Parser.parse` (lines 128-131), over the already-parsed soup contents: the
title is the stripped text of the first `title` tag (or `"No Title"`), and the
elements come from the first `html` tag if present, otherwise from the whole
document node (whose name `[document]` takes the container branch). -/
def parseDoc (contents : List Node) : List Element × String :=
  let title :=
    match findTagNamed "title" contents with
    | some t => getTextStrip t
    | none => "No Title"
  let root := (findTagNamed "html" contents).getD (.tag "[document]" [] contents)
  (parseElements root, title)

/-! ## Theorems -/

/-- C1, counterexample: for a 100x50 source with `max_width = 80`, the target
character height is 20, but the rasterizer emits 20 output lines (one per
character row, i.e. one per two resampled pixel rows), not 10 as claimed. -/
theorem c1_counterexample :
    targetHeightChars 100 50 80 = 20 ∧ outputLineCount 100 50 80 ≠ 10 := by decide

/-- C1, amended: for a 100x50 source with `max_width = 80`, the target
character height is 20 (already even) and the rasterizer emits exactly 20
output lines. -/
theorem c1_scenario_e :
    targetHeightChars 100 50 80 = 20 ∧ outputLineCount 100 50 80 = 20 := by decide

/-- C2, code behaviour at the failing input: a comment node (and likewise a
doctype node) reached during block-level mapping leaks its stripped text as a
`TextNode` instead of being suppressed — `Comment`/`Doctype` are `str`
subclasses, so the `isinstance(tag, str)` branch on line 134 catches them
before the suppression check on line 136 can fire. -/
theorem c2_comment_leaks :
    parseElements (Node.tag "div" [] [Node.comment "hello"]) = [Element.textNode "hello"]
      ∧ parseElements (Node.comment "hello") = [Element.textNode "hello"]
      ∧ parseElements (Node.doctype "html") = [Element.textNode "html"] :=
  ⟨rfl, rfl, rfl⟩

/-- C3, code behaviour at the failing input: for a 100x1 source with
`max_width = 80`, the initial floor is 0, so `max(1, 0 + 0 % 2)` yields a
target character height of 1, which is odd — the even-rounding of line 25 is
applied before the floor-to-1, so the `Ensure even` comment is violated. -/
theorem c3_odd_char_height :
    targetHeightChars 100 1 80 = 1 ∧ ¬ Even (targetHeightChars 100 1 80) := by decide

/-- C4, counterexample: the empty `p` tag has empty stripped text and children
producing no elements, yet block-level mapping emits an empty `Paragraph`
rather than the empty sequence, so the claim fails for specially-dispatched
tags. -/
theorem c4_counterexample :
    getTextStrip (Node.tag "p" [] []) = ""
      ∧ parseElements (Node.tag "p" [] []) = [Element.paragraph []]
      ∧ parseElements (Node.tag "p" [] []) ≠ [] :=
  ⟨rfl, rfl, by exact List.cons_ne_nil _ _⟩

/-- C4, amended: for every tag outside the specially-dispatched set
{h1, h2, h3, p, ul, button, img} — i.e. container/unknown tags, the suppressed
kinds, and `a` — empty stripped text content together with children that
produce no elements yields the empty element sequence (no stray empty
container). -/
theorem c4_no_stray_container :
    ∀ (name : String) (attrs : List (String × String)) (children : List Node),
      pyLower name ∉ ["h1", "h2", "h3", "p", "ul", "button", "img"] →
      getTextStrip (Node.tag name attrs children) = "" →
      parseElementsList children = [] →
      parseElements (Node.tag name attrs children) = [] := by
  intro name attrs children hname htext hkids
  have e : parseElements (Node.tag name attrs children)
      = dispatchTag name attrs children (parseElementsList children) := rfl
  rw [e, hkids]
  simp only [dispatchTag]
  split_ifs with h0 h1 h2 h3 h4 h5 h6 h7 h8
  · rfl
  · exact absurd (by rw [h1]; decide) hname
  · exact absurd (by rw [h2]; decide) hname
  · exact absurd (by rw [h3]; decide) hname
  · exact absurd (by rw [h4]; decide) hname
  · exact absurd (by rw [h5]; decide) hname
  · simp [htext]
  · exact absurd (by rw [h7]; decide) hname
  · exact absurd (by rw [h8]; decide) hname
  · simp [htext]

/-- C4, witness: a `div` whose only child is whitespace text maps to nothing. -/
theorem c4_witness :
    parseElements (Node.tag "div" [] [Node.text " "]) = [] :=
  c4_no_stray_container "div" [] [Node.text " "] (by decide) rfl rfl

/-- C5, counterexample: mapping
`<title>T</title><p>Hi <a href="x">there</a></p>` yields two elements, not
one — the `title` tag is not suppressed: it takes the container/unknown branch
and flattens to a stray `TextNode "T"`. -/
theorem c5_counterexample :
    (parseDoc [Node.tag "title" [] [Node.text "T"],
        Node.tag "p" [] [Node.text "Hi ", Node.tag "a" [("href", "x")] [Node.text "there"]]]
      ).1.length ≠ 1 := by decide

/-- C5, amended: mapping `<title>T</title><p>Hi <a href="x">there</a></p>`
yields the title string "T" and exactly two elements: a stray `TextNode "T"`
produced from the `title` tag by the container/unknown branch, followed by the
Paragraph whose inline content is exactly `Text "Hi"` then `Link "there" "x"`. -/
theorem c5_scenario_a :
    parseDoc [Node.tag "title" [] [Node.text "T"],
        Node.tag "p" [] [Node.text "Hi ", Node.tag "a" [("href", "x")] [Node.text "there"]]]
      = ([Element.textNode "T",
          Element.paragraph [Element.textNode "Hi", Element.anchor "there" "x"]], "T") := rfl

/-- C6: every `a` tag maps, at block level and at inline level alike, to a
`Link` carrying its stripped text and its `href` attribute (defaulting to "#"
when absent), and to no element at all when the stripped text is empty. -/
theorem c6_anchor_mapping :
    ∀ (attrs : List (String × String)) (children : List Node),
      parseElements (Node.tag "a" attrs children)
          = (if getTextStrip (Node.tag "a" attrs children) = "" then []
             else [Element.anchor (getTextStrip (Node.tag "a" attrs children))
                     ((lookupAttr attrs "href").getD "#")])
        ∧ parseInlineNode (Node.tag "a" attrs children)
          = (if getTextStrip (Node.tag "a" attrs children) = "" then []
             else [Element.anchor (getTextStrip (Node.tag "a" attrs children))
                     ((lookupAttr attrs "href").getD "#")]) :=
  fun _ _ => ⟨rfl, rfl⟩

/-- C7: a raw text node in inline content is dropped whenever its stripped
text is empty, contains (case-insensitively) "endif" or "[if", or contains a
literal "<!"; in particular the raw text node
`<!--[if IE]>hi<![endif]-->` inside a paragraph produces nothing. -/
theorem c7_noise_filter :
    (∀ s : String,
        (pyStrip s = ""
            ∨ strContains (pyLower (pyStrip s)) "endif" = true
            ∨ strContains (pyLower (pyStrip s)) "[if" = true
            ∨ strContains (pyStrip s) "<!" = true) →
        parseInlineNode (Node.text s) = [])
      ∧ parseElements (Node.tag "p" [] [Node.text "<!--[if IE]>hi<![endif]-->"])
          = [Element.paragraph []] := by
  constructor
  · intro s h
    rcases h with h | h | h | h <;> simp [parseInlineNode, h]
  · rfl

/-- C7, witness: a trimmed text node containing a literal "<!" is dropped. -/
theorem c7_witness :
    parseInlineNode (Node.text " stray <! residue ") = [] :=
  c7_noise_filter.1 " stray <! residue " (Or.inr (Or.inr (Or.inr (by decide))))

/-- C8: a Heading whose level lies outside {1, 2, 3} still renders (rendering
is total) and takes the default style branch of the level-to-style selection,
producing the yellow default-styled fragment. -/
theorem c8_heading_default_style :
    ∀ (text : String) (level : ℕ), level ≠ 1 → level ≠ 2 → level ≠ 3 →
      renderElement (Element.heading text level)
        = "\n" ++ BOLD ++ YELLOW_FG ++ String.mk (List.replicate level '#') ++ " " ++ text
            ++ RESET ++ "\n" := by
  intro t l h1 h2 _h3
  simp [renderElement, headingStyle, h1, h2]

/-- C8, witness: a level-5 heading renders with the default yellow style. -/
theorem c8_witness :
    renderElement (Element.heading "Title" 5)
      = "\n" ++ BOLD ++ YELLOW_FG ++ String.mk (List.replicate 5 '#') ++ " " ++ "Title"
          ++ RESET ++ "\n" :=
  c8_heading_default_style "Title" 5 (by decide) (by decide) (by decide)

/-- C9: only levels 1 and 2 select distinct styles (blue and green); level 3
already takes the same default yellow style as every other level, so a level-3
heading is indistinguishable in style from a level-5 one. -/
theorem c9_heading_styles :
    headingStyle 1 = BLUE_FG ∧ headingStyle 2 = GREEN_FG ∧ headingStyle 3 = YELLOW_FG
      ∧ headingStyle 3 = headingStyle 5
      ∧ (∀ level : ℕ, level ≠ 1 → level ≠ 2 → headingStyle level = YELLOW_FG)
      ∧ BLUE_FG ≠ GREEN_FG ∧ BLUE_FG ≠ YELLOW_FG ∧ GREEN_FG ≠ YELLOW_FG := by
  refine ⟨rfl, rfl, rfl, rfl, ?_, by decide, by decide, by decide⟩
  intro l h1 h2
  simp [headingStyle, h1, h2]

/-- C9, witness: an out-of-range level also takes the default yellow style. -/
theorem c9_witness : headingStyle 5 = YELLOW_FG :=
  c9_heading_styles.2.2.2.2.1 5 (by decide) (by decide)

/-- C10: in the row-pair loop every pixel access is in bounds: each pair has
top index `y < height` and bottom index `min (y+1) (height-1) < height` (the
clamp keeps the access legal even for odd heights), and every column index is
below the width. -/
theorem c10_pixel_access_in_bounds :
    ∀ (w rh : ℕ), 1 ≤ w → 1 ≤ rh →
      (∀ pr ∈ rowPairIndices rh, pr.1 < rh ∧ pr.2 < rh ∧ pr.2 = min (pr.1 + 1) (rh - 1))
        ∧ (∀ x ∈ colIndices w, x < w) := by
  intro w rh _hw hrh
  constructor
  · intro pr hpr
    simp only [rowPairIndices, List.mem_map, List.mem_range] at hpr
    obtain ⟨i, hi, rfl⟩ := hpr
    refine ⟨?_, ?_, rfl⟩ <;> omega
  · intro x hx
    simpa [colIndices] using hx

/-- C10, witness: for an odd resized height of 5, the final pair is the
clamped `(4, 4)` and stays in bounds. -/
theorem c10_witness :
    (4, 4).1 < 5 ∧ (4, 4).2 < 5 ∧ (4, 4).2 = min ((4, 4).1 + 1) (5 - 1) :=
  (c10_pixel_access_in_bounds 3 5 (by decide) (by decide)).1 (4, 4) (by decide)
